import Mathlib

/-!
Verification of the session-addressed SSE relay server from
`src/server/src/server.ts` (an MCP app server).

The embedding models:
* the Stream Session Table (`const sessions = new Map<string, SessionRecord>()`)
  as an association list with JS `Map` semantics (`Map.set` overwrites in
  place, `Map.get` returns the bound value, `Map.delete` removes the entry;
  a JS `Map` never holds two entries with the same key);
* the HTTP handlers `handleSseRequest` and `handlePostMessage` as pure
  functions over that table, with the external SDK calls
  (`server.connect`, `transport.handlePostMessage`) abstracted as
  outcome parameters;
* the `transport.onclose` / `transport.onerror` callbacks installed by
  `handleSseRequest` as a small event semantics;
* `loadWidgetAssets` over an abstract filesystem snapshot
  (`fs.existsSync` / `fs.readFileSync`);
* `createServerInstance` as a registry builder tagged with an allocation
  identity (the shallow embedding of `new McpServer(...)`: every call
  allocates a fresh object);
* the port computation from the `PORT` environment variable, with JS
  `Number(...)` conversion abstracted as a `String → Option Int` parameter
  (`none` standing for the non-finite results `NaN` / `±Infinity`).
-/

namespace McpApp

/-! ## Stream Session Table: JS `Map` semantics on association lists -/

/-- JS `Map.prototype.set`: if the key is already bound, overwrite the binding
in place; otherwise append a new entry at the end. -/
def setEntry {α : Type} : List (String × α) → String → α → List (String × α)
  | [], key, v => [(key, v)]
  | (k, w) :: rest, key, v =>
    if k = key then (key, v) :: rest else (k, w) :: setEntry rest key v

/-- JS `Map.prototype.get`: the value bound to the key, or `none`. -/
def getEntry {α : Type} : List (String × α) → String → Option α
  | [], _ => none
  | (k, w) :: rest, key => if k = key then some w else getEntry rest key

/-- JS `Map.prototype.delete`: remove the entry bound to the key, if any. -/
def deleteEntry {α : Type} : List (String × α) → String → List (String × α)
  | [], _ => []
  | (k, w) :: rest, key => if k = key then rest else (k, w) :: deleteEntry rest key

/-- The keys of the table, in order. -/
def tableKeys {α : Type} (t : List (String × α)) : List String :=
  t.map Prod.fst

/-- One operation on the Stream Session Table, as performed by the router:
`put` is `sessions.set(id, record)` and `remove` is `sessions.delete(id)`. -/
inductive TableOp (α : Type) where
  | put (key : String) (v : α)
  | remove (key : String)
deriving DecidableEq, Repr

/-- Whether the operation addresses the given key (a `remove` of the key or
an overwriting `put` under the key). -/
def touchesId {α : Type} : TableOp α → String → Bool
  | .put k _, key => k == key
  | .remove k, key => k == key

/-- Run one table operation. -/
def applyOp {α : Type} (t : List (String × α)) : TableOp α → List (String × α)
  | .put k v => setEntry t k v
  | .remove k => deleteEntry t k

/-- Run a sequence of table operations in order. -/
def applyOps {α : Type} (t : List (String × α)) (ops : List (TableOp α)) :
    List (String × α) :=
  ops.foldl applyOp t

/-! ## HTTP responses and the router's per-connection state -/

/-- An HTTP response as written by `res.writeHead(status).end(body)`. -/
structure HttpResponse where
  status : Nat
  body : String
deriving DecidableEq, Repr

/-- The router's per-connection state of §4.5 of the spec, derived from the
Stream Session Table: a session is `OPEN` while its id is in the table and
`CLOSED` once it has been removed. -/
inductive ConnState where
  | OPEN
  | CLOSED
deriving DecidableEq, Repr

/-- The connection state the router associates with a session id. -/
def connState {α : Type} (t : List (String × α)) (sid : String) : ConnState :=
  match getEntry t sid with
  | some _ => ConnState.OPEN
  | none => ConnState.CLOSED

/-! ## Transport lifecycle callbacks installed by `handleSseRequest`

`handleSseRequest` installs `transport.onclose` (which runs
`sessions.delete(sessionId)`) and `transport.onerror` (which only logs via
`console.error`).  The SDK transport fires `onclose` when the client
disconnects, and also after a fatal stream error (a fatal error closes the
transport); both callbacks may fire, in any order and possibly repeatedly.
We model the effect of one callback invocation on the session table. -/

/-- A lifecycle event delivered to the callbacks of one session's transport. -/
inductive StreamEvent where
  | close
  | error (msg : String)
deriving DecidableEq, Repr

/-- Whether the event is a close event. -/
def StreamEvent.isClose : StreamEvent → Bool
  | .close => true
  | .error _ => false

/-- Effect of one callback invocation on the Stream Session Table:
`transport.onclose` runs `sessions.delete(sessionId)`; `transport.onerror`
runs `console.error(...)` only and leaves the table untouched. -/
def applyStreamEvent {α : Type} (sid : String) (t : List (String × α)) :
    StreamEvent → List (String × α)
  | .close => deleteEntry t sid
  | .error _ => t

/-- Table reached after a sequence of lifecycle callback invocations. -/
def runStreamEvents {α : Type} (sid : String) (t : List (String × α))
    (evs : List StreamEvent) : List (String × α) :=
  evs.foldl (applyStreamEvent sid) t

/-! ## The POST message handler (`handlePostMessage`)

The SDK call `session.transport.handlePostMessage(req, res)` is external; we
abstract it as an outcome: it either completes (writing the transport-level
acknowledgement itself) or throws, in which case the catch block answers 500
when response headers have not yet been sent.  A `none` response component
means the handler wrote no response of its own. -/

/-- Outcome of forwarding a message to a session's transport. -/
inductive ForwardOutcome where
  | ok
  | failed (headersSent : Bool) (err : String)
deriving DecidableEq, Repr

/-- Shallow embedding of `handlePostMessage`: read the `sessionId` query
parameter, answer 400 when the guard `if (!sessionId)` fires — in JS
`url.searchParams.get` returns `null` when the parameter is absent and the
empty string when it is present but empty, and both are falsy — then look
the session up, answer 404 when unknown, otherwise forward to the session's
transport and answer 500 on an exception when headers are still unsent.
Returns the response written by this handler (if any) together with the
session table afterwards. -/
def handlePostMessage {α : Type} (sessionId : Option String)
    (sessions : List (String × α)) (forward : α → ForwardOutcome) :
    Option HttpResponse × List (String × α) :=
  match sessionId with
  | none => (some ⟨400, "Missing sessionId query parameter"⟩, sessions)
  | some sid =>
    if sid = "" then
      (some ⟨400, "Missing sessionId query parameter"⟩, sessions)
    else
      match getEntry sessions sid with
      | none => (some ⟨404, "Unknown session"⟩, sessions)
      | some record =>
        match forward record with
        | .ok => (none, sessions)
        | .failed true _ => (none, sessions)
        | .failed false _ => (some ⟨500, "Failed to process message"⟩, sessions)

/-! ## The SSE stream-open handler (`handleSseRequest`)

`handleSseRequest` builds a fresh server instance and transport, inserts the
record into the session table under the transport's freshly minted session
id, installs the lifecycle callbacks, and awaits `server.connect(transport)`.
The SDK connect call is external; we abstract it as an `Except` outcome.  On
failure the catch block deletes the just-inserted id and answers 500 when
response headers have not yet been sent. -/

/-- Shallow embedding of `handleSseRequest` from session insertion onwards:
the table after the handler returns, and the response written by the catch
block (if any). -/
def handleSseRequest {α : Type} (t : List (String × α)) (sid : String) (record : α)
    (connectResult : Except String Unit) (headersSent : Bool) :
    List (String × α) × Option HttpResponse :=
  let inserted := setEntry t sid record
  match connectResult with
  | .ok _ => (inserted, none)
  | .error _ =>
    (deleteEntry inserted sid,
      if headersSent then none
      else some ⟨500, "Failed to establish SSE connection"⟩)

/-! ## Filesystem model and `loadWidgetAssets` -/

/-- A snapshot of the filesystem as seen through `fs.existsSync` and
`fs.readFileSync` (the latter returning `none` where a read would throw). -/
structure FileSystem where
  pathExists : String → Bool
  readFile : String → Option String

/-- The remediation command quoted in both diagnostics of `loadWidgetAssets`. -/
def buildCmd : String := "cd web && pnpm run build"

/-- `path.join(ASSETS_DIR, componentName + ".js")` (POSIX separator). -/
def jsPathOf (assetsDir componentName : String) : String :=
  assetsDir ++ "/" ++ componentName ++ ".js"

/-- `path.join(ASSETS_DIR, componentName + ".css")` (POSIX separator). -/
def cssPathOf (assetsDir componentName : String) : String :=
  assetsDir ++ "/" ++ componentName ++ ".css"

/-- Diagnostic thrown when the built asset directory is missing. -/
def dirMissingMsg (assetsDir : String) : String :=
  "Widget assets not found. Expected directory " ++ assetsDir ++
    ". Run \"" ++ buildCmd ++ "\" before starting the server."

/-- Diagnostic thrown when the component's JS bundle file is missing. -/
def jsMissingMsg (assetsDir componentName : String) : String :=
  "Widget JS for \"" ++ componentName ++ "\" not found at " ++
    jsPathOf assetsDir componentName ++
    ". Run \"" ++ buildCmd ++ "\" to generate the assets."

/-- The self-contained widget HTML built by `loadWidgetAssets` (the source
template, after its final `.trim()`); an empty CSS string is falsy in JS, so
the `<style>` block is omitted exactly when the CSS is empty. -/
def widgetHtml (componentName js css : String) : String :=
  "<div id=\"" ++ componentName ++ "-root\"></div>\n" ++
    (if css = "" then "" else "<style>" ++ css ++ "</style>") ++
    "\n<script type=\"module\">" ++ js ++ "</script>"

/-- The `{js, css, html}` record returned by `loadWidgetAssets`. -/
structure WidgetAssets where
  js : String
  css : String
  html : String
deriving DecidableEq, Repr

/-- Shallow embedding of `loadWidgetAssets`: check that the asset directory
exists, check that the component's JS bundle exists (each failure throwing a
diagnostic that names the missing path and the remediation command), read the
JS, read the CSS inside a try/catch that falls back to the empty string, and
assemble the self-contained HTML. -/
def loadWidgetAssets (assetsDir : String) (fs : FileSystem) (componentName : String) :
    Except String WidgetAssets :=
  if !(fs.pathExists assetsDir) then
    .error (dirMissingMsg assetsDir)
  else if !(fs.pathExists (jsPathOf assetsDir componentName)) then
    .error (jsMissingMsg assetsDir componentName)
  else
    match fs.readFile (jsPathOf assetsDir componentName) with
    | none =>
      .error ("ENOENT: no such file or directory, open " ++
        jsPathOf assetsDir componentName)
    | some js =>
      let css := (fs.readFile (cssPathOf assetsDir componentName)).getD ""
      .ok ⟨js, css, widgetHtml componentName js css⟩

/-! ## The per-session server instance (`createServerInstance`)

`createServerInstance` allocates a new `McpServer`, loads the todo widget
assets, registers the `todo-widget` resource and the three tools, and returns
the instance.  The shallow embedding of `new McpServer(...)` is allocation of
a fresh identity: the caller threads a fresh allocation tag (distinct calls
receive distinct tags), which stands for the new object's identity — two
handles share mutable state exactly when they carry the same tag. -/

/-- A registered tool: name, title, and the required/optional field names of
its zod input schema. -/
structure ToolReg where
  name : String
  title : String
  requiredFields : List String
  optionalFields : List String
deriving DecidableEq, Repr

/-- A registered resource: registration name, URI, MIME type and payload. -/
structure ResourceReg where
  name : String
  uri : String
  mimeType : String
  text : String
deriving DecidableEq, Repr

/-- URI of the todo widget resource. -/
def todoUri : String := "ui://widget/todo.html"

/-- Registration data of the `show-todo` tool. -/
def showTodoReg : ToolReg :=
  ⟨"show-todo", "Show Todo List", ["message"], ["userId"]⟩

/-- Registration data of the `refresh-todos` tool. -/
def refreshTodosReg : ToolReg :=
  ⟨"refresh-todos", "Refresh Todo List", [], ["listId", "userId"]⟩

/-- Registration data of the `save-todo-state` tool. -/
def saveTodoStateReg : ToolReg :=
  ⟨"save-todo-state", "Save Todo State", ["todos"], ["listId", "userId"]⟩

/-- One per-session `McpServer` instance: its allocation identity and its
private tool and resource registries. -/
structure McpServerModel where
  instanceId : Nat
  resources : List ResourceReg
  tools : List ToolReg
deriving DecidableEq, Repr

/-- Shallow embedding of `createServerInstance`: load the todo widget assets
(propagating the exception if they are missing), then return a freshly
allocated server pre-populated with the `todo-widget` resource and the
`show-todo`, `refresh-todos` and `save-todo-state` tools. -/
def createServerInstance (assetsDir : String) (fs : FileSystem) (freshId : Nat) :
    Except String McpServerModel :=
  match loadWidgetAssets assetsDir fs "todo" with
  | .error e => .error e
  | .ok assets =>
    .ok { instanceId := freshId,
          resources := [⟨"todo-widget", todoUri, "text/html+skybridge", assets.html⟩],
          tools := [showTodoReg, refreshTodosReg, saveTodoStateReg] }

/-! ## The `show-todo` tool handler -/

/-- One sample todo item as returned by the `show-todo` handler. -/
structure TodoItem where
  id : String
  title : String
  isComplete : Bool
  note : String
  dueDate : Option String
deriving DecidableEq, Repr

/-- The canned todo data of the `show-todo` handler. -/
def sampleTodos : List TodoItem :=
  [⟨"1", "Learn about ChatGPT Apps SDK", false,
     "Study the window.openai API integration", some "2024-01-15"⟩,
   ⟨"2", "Build an interactive widget", true,
     "Implement two-way communication with ChatGPT", some "2024-01-10"⟩,
   ⟨"3", "Deploy to production", false,
     "Test with real ChatGPT integration", none⟩]

/-- One list in the structured content of the `show-todo` result. -/
structure TodoList where
  id : String
  title : String
  isCurrentlyOpen : Bool
  todos : List TodoItem
deriving DecidableEq, Repr

/-- The `structuredContent` payload of the `show-todo` result. -/
structure ShowTodoStructured where
  lists : List TodoList
  message : String
  userId : String
deriving DecidableEq, Repr

/-- One item of the `content` array of a tool result. -/
structure ContentItem where
  type : String
  text : String
deriving DecidableEq, Repr

/-- The `_meta` payload of the `show-todo` result. -/
structure ShowTodoMeta where
  messageLen : Nat
  totalTodos : Nat
  completedTodos : Nat
deriving DecidableEq, Repr

/-- The full result of the `show-todo` handler. -/
structure ShowTodoResult where
  content : List ContentItem
  structuredContent : ShowTodoStructured
  meta : ShowTodoMeta
deriving DecidableEq, Repr

/-- JS `userId || "anonymous"`: the empty string is falsy. -/
def jsOrAnonymous (userId : Option String) : String :=
  match userId with
  | some u => if u = "" then "anonymous" else u
  | none => "anonymous"

/-- Shallow embedding of the `show-todo` tool handler body. -/
def showTodoHandler (message : String) (userId : Option String) : ShowTodoResult :=
  { content := [⟨"text", "Rendered a todo list! " ++ message⟩],
    structuredContent :=
      ⟨[⟨"main-list", "My Tasks", true, sampleTodos⟩], message, jsOrAnonymous userId⟩,
    meta := ⟨message.length, sampleTodos.length,
             (sampleTodos.filter (fun t => t.isComplete)).length⟩ }

/-- Raw input of a `show-todo` call after JSON decoding, before zod
validation: the required `message` field and the optional `userId` field may
each be absent. -/
structure ShowTodoRawInput where
  message : Option String
  userId : Option String
deriving DecidableEq, Repr

/-- Invoking the `show-todo` tool: zod rejects input whose required `message`
field is absent; valid input reaches the handler. -/
def invokeShowTodo (raw : ShowTodoRawInput) : Except String ShowTodoResult :=
  match raw.message with
  | none => .error "Invalid arguments: message is required"
  | some m => .ok (showTodoHandler m raw.userId)

/-! ## The listening port -/

/-- The JS number `Number(process.env.PORT ?? 8000)`, with string-to-number
conversion abstracted as `toNumber` (returning `none` for the non-finite
results `NaN` and `±Infinity`). -/
def portEnvOf (envPORT : Option String) (toNumber : String → Option Int) : Option Int :=
  match envPORT with
  | none => some 8000
  | some s => toNumber s

/-- The listening port: `Number.isFinite(portEnv) ? portEnv : 8000`. -/
def portOf (envPORT : Option String) (toNumber : String → Option Int) : Int :=
  match portEnvOf envPORT toNumber with
  | some n => n
  | none => 8000

/-! ## Concrete fixtures used by the witnesses -/

/-- A filesystem snapshot with no paths at all. -/
def fsEmpty : FileSystem := ⟨fun _ => false, fun _ => none⟩

/-- A filesystem snapshot holding the built `todo.js` bundle (and no CSS). -/
def fsDist : FileSystem :=
  ⟨fun p => p = "dist" || p = "dist/todo.js",
   fun p => if p = "dist/todo.js" then some "JSCODE" else none⟩

/-- A concrete JS string-to-number conversion: only `"3000"` is a finite
number; everything else converts to `NaN`. -/
def toNumberW : String → Option Int :=
  fun s => if s = "3000" then some 3000 else none

/-! ## Lemmas about the Stream Session Table -/

theorem getEntry_setEntry_self {α : Type} (t : List (String × α)) (key : String) (v : α) :
    getEntry (setEntry t key v) key = some v := by
  induction t with
  | nil => simp [setEntry, getEntry]
  | cons hd rest ih =>
    obtain ⟨k, w⟩ := hd
    by_cases hk : k = key
    · simp [setEntry, getEntry, hk]
    · simp [setEntry, getEntry, hk, ih]

theorem getEntry_setEntry_ne {α : Type} (t : List (String × α)) {k key : String} (v : α)
    (hne : k ≠ key) : getEntry (setEntry t k v) key = getEntry t key := by
  induction t with
  | nil => simp [setEntry, getEntry, hne]
  | cons hd rest ih =>
    obtain ⟨k2, w⟩ := hd
    by_cases hk : k2 = k
    · subst hk
      simp [setEntry, getEntry, hne]
    · by_cases hk2 : k2 = key
      · simp [setEntry, getEntry, hk, hk2, Ne.symm hne]
      · simp [setEntry, getEntry, hk, hk2, ih]

theorem getEntry_deleteEntry_ne {α : Type} (t : List (String × α)) {k key : String}
    (hne : k ≠ key) : getEntry (deleteEntry t k) key = getEntry t key := by
  induction t with
  | nil => simp [deleteEntry]
  | cons hd rest ih =>
    obtain ⟨k2, w⟩ := hd
    by_cases hk : k2 = k
    · subst hk
      simp [deleteEntry, getEntry, hne]
    · by_cases hk2 : k2 = key
      · simp [deleteEntry, getEntry, hk, hk2, Ne.symm hne]
      · simp [deleteEntry, getEntry, hk, hk2, ih]

theorem getEntry_eq_none_of_not_mem_keys {α : Type} (t : List (String × α)) (key : String)
    (h : key ∉ tableKeys t) : getEntry t key = none := by
  induction t with
  | nil => simp [getEntry]
  | cons hd rest ih =>
    obtain ⟨k, w⟩ := hd
    simp only [tableKeys, List.map_cons, List.mem_cons] at h
    push_neg at h
    have hk : k ≠ key := fun hkk => h.1 hkk.symm
    simp only [getEntry, hk, if_false]
    exact ih (by simpa [tableKeys] using h.2)

theorem not_mem_keys_of_getEntry_eq_none {α : Type} (t : List (String × α)) (key : String)
    (h : getEntry t key = none) : key ∉ tableKeys t := by
  induction t with
  | nil => simp [tableKeys]
  | cons hd rest ih =>
    obtain ⟨k, w⟩ := hd
    by_cases hk : k = key
    · simp [getEntry, hk] at h
    · simp only [getEntry, hk, if_false] at h
      simp only [tableKeys, List.map_cons, List.mem_cons]
      push_neg
      exact ⟨fun hkk => hk hkk.symm, by simpa [tableKeys] using ih h⟩

theorem deleteEntry_of_getEntry_none {α : Type} (t : List (String × α)) (key : String)
    (h : getEntry t key = none) : deleteEntry t key = t := by
  induction t with
  | nil => rfl
  | cons hd rest ih =>
    obtain ⟨k, w⟩ := hd
    by_cases hk : k = key
    · simp [getEntry, hk] at h
    · simp only [getEntry, hk, if_false] at h
      simp [deleteEntry, hk, ih h]

theorem deleteEntry_setEntry_fresh {α : Type} (t : List (String × α)) (key : String) (v : α)
    (h : getEntry t key = none) : deleteEntry (setEntry t key v) key = t := by
  induction t with
  | nil => simp [setEntry, deleteEntry]
  | cons hd rest ih =>
    obtain ⟨k, w⟩ := hd
    by_cases hk : k = key
    · simp [getEntry, hk] at h
    · simp only [getEntry, hk, if_false] at h
      simp [setEntry, deleteEntry, hk, ih h]

theorem keys_deleteEntry_sublist {α : Type} (t : List (String × α)) (key : String) :
    (tableKeys (deleteEntry t key)).Sublist (tableKeys t) := by
  induction t with
  | nil => simp [deleteEntry]
  | cons hd rest ih =>
    obtain ⟨k, w⟩ := hd
    by_cases hk : k = key
    · subst hk
      simp only [deleteEntry, if_pos rfl, tableKeys, List.map_cons]
      exact (List.sublist_cons_self k (rest.map Prod.fst))
    · simp only [deleteEntry, hk, if_false, tableKeys, List.map_cons]
      exact List.Sublist.cons₂ k ih

theorem nodup_keys_deleteEntry {α : Type} (t : List (String × α)) (key : String)
    (h : (tableKeys t).Nodup) : (tableKeys (deleteEntry t key)).Nodup :=
  (keys_deleteEntry_sublist t key).nodup h

theorem getEntry_deleteEntry_self {α : Type} (t : List (String × α)) (key : String)
    (h : (tableKeys t).Nodup) : getEntry (deleteEntry t key) key = none := by
  induction t with
  | nil => rfl
  | cons hd rest ih =>
    obtain ⟨k, w⟩ := hd
    simp only [tableKeys, List.map_cons, List.nodup_cons] at h
    by_cases hk : k = key
    · subst hk
      simp only [deleteEntry, if_true]
      exact getEntry_eq_none_of_not_mem_keys rest k h.1
    · simp only [deleteEntry, hk, if_false, getEntry]
      exact ih h.2

theorem deleteEntry_idem {α : Type} (t : List (String × α)) (key : String)
    (h : (tableKeys t).Nodup) :
    deleteEntry (deleteEntry t key) key = deleteEntry t key :=
  deleteEntry_of_getEntry_none _ _ (getEntry_deleteEntry_self t key h)

theorem getEntry_applyOp_untouched {α : Type} (t : List (String × α)) (key : String)
    (op : TableOp α) (h : touchesId op key = false) :
    getEntry (applyOp t op) key = getEntry t key := by
  cases op with
  | put k v =>
    have hk : k ≠ key := by simpa [touchesId] using h
    exact getEntry_setEntry_ne t v hk
  | remove k =>
    have hk : k ≠ key := by simpa [touchesId] using h
    exact getEntry_deleteEntry_ne t hk

theorem getEntry_applyOps_untouched {α : Type} (ops : List (TableOp α))
    (t : List (String × α)) (key : String)
    (h : ∀ op ∈ ops, touchesId op key = false) :
    getEntry (applyOps t ops) key = getEntry t key := by
  induction ops generalizing t with
  | nil => rfl
  | cons op rest ih =>
    have h1 : touchesId op key = false := h op (List.mem_cons_self op rest)
    have h2 : ∀ o ∈ rest, touchesId o key = false :=
      fun o ho => h o (List.mem_cons_of_mem op ho)
    calc getEntry (applyOps (applyOp t op) rest) key
        = getEntry (applyOp t op) key := ih (applyOp t op) h2
      _ = getEntry t key := getEntry_applyOp_untouched t key op h1

theorem runStreamEvents_eq {α : Type} (sid : String) (t : List (String × α))
    (evs : List StreamEvent) (hn : (tableKeys t).Nodup) :
    runStreamEvents sid t evs =
      if evs.any StreamEvent.isClose then deleteEntry t sid else t := by
  induction evs generalizing t with
  | nil => simp [runStreamEvents]
  | cons e rest ih =>
    cases e with
    | error msg =>
      have h1 : runStreamEvents sid t (StreamEvent.error msg :: rest)
          = runStreamEvents sid t rest := rfl
      rw [h1, ih t hn]
      simp [StreamEvent.isClose]
    | close =>
      have h1 : runStreamEvents sid t (StreamEvent.close :: rest)
          = runStreamEvents sid (deleteEntry t sid) rest := rfl
      rw [h1, ih _ (nodup_keys_deleteEntry t sid hn)]
      by_cases hc : rest.any StreamEvent.isClose
      · simp [hc, StreamEvent.isClose, deleteEntry_idem t sid hn]
      · simp [hc, StreamEvent.isClose]

/-! ## The claims -/

/-- Claim C1: on stream error or client disconnect — any sequence of
lifecycle callback invocations that includes at least one close event (the
SDK transport fires `onclose` on client disconnect, and a fatal stream error
closes the transport, so the sequence always contains a close) — the router
ends with the connection `CLOSED` and the session's id removed from the
Stream Session Table, and the net effect on the table is that of exactly one
removal, even if both the error callback and the close callback fire, and
even if a callback fires more than once. -/
theorem teardown_runs_once {α : Type} (t : List (String × α)) (sid : String)
    (evs : List StreamEvent) (hn : (tableKeys t).Nodup)
    (hc : evs.any StreamEvent.isClose = true) :
    runStreamEvents sid t evs = deleteEntry t sid ∧
    getEntry (runStreamEvents sid t evs) sid = none ∧
    connState (runStreamEvents sid t evs) sid = ConnState.CLOSED := by
  have h := runStreamEvents_eq sid t evs hn
  rw [hc] at h
  simp only [if_true] at h
  refine ⟨h, ?_, ?_⟩
  · rw [h]
    exact getEntry_deleteEntry_self t sid hn
  · rw [connState, h, getEntry_deleteEntry_self t sid hn]

/-- Witness for C1 at a concrete session table and callback sequence in which
the error callback fires once and the close callback fires twice. -/
theorem teardown_runs_once_witness :
    runStreamEvents "s1" [("s1", (0 : Nat))]
        [StreamEvent.error "boom", StreamEvent.close, StreamEvent.close]
      = deleteEntry [("s1", (0 : Nat))] "s1" ∧
    getEntry (runStreamEvents "s1" [("s1", (0 : Nat))]
        [StreamEvent.error "boom", StreamEvent.close, StreamEvent.close]) "s1" = none ∧
    connState (runStreamEvents "s1" [("s1", (0 : Nat))]
        [StreamEvent.error "boom", StreamEvent.close, StreamEvent.close]) "s1"
      = ConnState.CLOSED :=
  teardown_runs_once _ _ _ (by decide) (by decide)

/-- Claim C2: a POST to the message path whose URL carries no `sessionId`
query parameter is answered with HTTP 400 and a body that names the missing
`sessionId` parameter, and the session table is untouched. -/
theorem post_missing_session_id_responds_400 {α : Type}
    (sessions : List (String × α)) (forward : α → ForwardOutcome) :
    handlePostMessage none sessions forward
      = (some ⟨400, "Missing sessionId query parameter"⟩, sessions) ∧
    "sessionId".data <:+: "Missing sessionId query parameter".data :=
  ⟨rfl, by decide⟩

/-- Counterexample to claim C3 as stated: the empty string is a `sessionId`
query parameter value (`POST /mcp/messages?sessionId=` carries it) that
matches no entry in the Stream Session Table, yet the source's falsy guard
`if (!sessionId)` fires on it and the router answers HTTP 400
"Missing sessionId query parameter", not the 404 the claim asserts. -/
theorem post_unknown_session_counterexample :
    getEntry [("s1", (0 : Nat))] "" = none ∧
    handlePostMessage (some "") [("s1", (0 : Nat))] (fun _ => ForwardOutcome.ok)
      = (some ⟨400, "Missing sessionId query parameter"⟩, [("s1", (0 : Nat))]) ∧
    (handlePostMessage (some "") [("s1", (0 : Nat))]
        (fun _ => ForwardOutcome.ok)).1 ≠ some ⟨404, "Unknown session"⟩ :=
  ⟨rfl, rfl, by decide⟩

/-- Claim C3 (amended): a POST to the message path whose `sessionId` query
parameter is non-empty and matches no entry in the Stream Session Table is
answered with HTTP 404 and the retryable "Unknown session" body (the handler
returns normally — no crash), and the session table is unchanged; a
present-but-empty `sessionId` is caught by the falsy guard and answered 400
as missing instead. -/
theorem post_unknown_session_responds_404 {α : Type} (sid : String)
    (sessions : List (String × α)) (forward : α → ForwardOutcome)
    (hne : sid ≠ "") (h : getEntry sessions sid = none) :
    handlePostMessage (some sid) sessions forward
      = (some ⟨404, "Unknown session"⟩, sessions) := by
  simp [handlePostMessage, hne, h]

/-- Witness for C3 at a table holding one live session and a non-empty stale
id. -/
theorem post_unknown_session_responds_404_witness :
    handlePostMessage (some "unknown-id") [("s1", (0 : Nat))]
        (fun _ => ForwardOutcome.ok)
      = (some ⟨404, "Unknown session"⟩, [("s1", (0 : Nat))]) :=
  post_unknown_session_responds_404 _ _ _ (by decide) (by decide)

/-- Claim C4: after `put(id, s)`, `get(id)` returns that same `s` across any
further sequence of operations none of which is a `remove(id)` or a
`put(id, _)`; and `put` inserts unconditionally, overwriting any existing
binding of the same id. -/
theorem table_put_get_until {α : Type} (t : List (String × α)) (key : String)
    (v w : α) (ops : List (TableOp α))
    (h : ∀ op ∈ ops, touchesId op key = false) :
    getEntry (applyOps (setEntry t key v) ops) key = some v ∧
    getEntry (setEntry t key w) key = some w :=
  ⟨by rw [getEntry_applyOps_untouched ops _ key h]
      exact getEntry_setEntry_self t key v,
   getEntry_setEntry_self t key w⟩

/-- Witness for C4: the value put under `"a"` survives operations on `"b"`,
and a second put under `"a"` overwrites (the table already binds `"a"`). -/
theorem table_put_get_until_witness :
    getEntry (applyOps (setEntry [("a", (0 : Nat))] "a" 1)
        [TableOp.put "b" 7, TableOp.remove "b"]) "a" = some 1 ∧
    getEntry (setEntry [("a", (0 : Nat))] "a" 2) "a" = some 2 :=
  table_put_get_until [("a", (0 : Nat))] "a" 1 2 _ (by decide)

/-- Claim C5: `remove(id)` on the Stream Session Table is idempotent:
removing an absent id is a no-op that leaves the table unchanged (and the
operation is total — it cannot fail), so a second `remove(id)` right after a
first changes nothing. -/
theorem remove_idempotent_no_op {α : Type} (t : List (String × α)) (key : String)
    (hn : (tableKeys t).Nodup) :
    (getEntry t key = none → deleteEntry t key = t) ∧
    deleteEntry (deleteEntry t key) key = deleteEntry t key :=
  ⟨deleteEntry_of_getEntry_none t key, deleteEntry_idem t key hn⟩

/-- Witness for C5: removing the absent id `"b"` is a no-op, and removing
`"a"` twice equals removing it once. -/
theorem remove_idempotent_no_op_witness :
    (deleteEntry [("a", (1 : Nat))] "b" = [("a", (1 : Nat))]) ∧
    deleteEntry (deleteEntry [("a", (1 : Nat))] "a") "a"
      = deleteEntry [("a", (1 : Nat))] "a" :=
  ⟨(remove_idempotent_no_op [("a", (1 : Nat))] "b" (by decide)).1 (by decide),
   (remove_idempotent_no_op [("a", (1 : Nat))] "a" (by decide)).2⟩

/-- Claim C6: every successful call of the session handler factory
`createServerInstance` returns a freshly allocated server pre-populated with
every statically known tool (`show-todo`, `refresh-todos`, `save-todo-state`)
and resource (`todo-widget`); two distinct calls (distinct allocation tags)
return handles with distinct identities, hence sharing no mutable state, each
bound to its own single new session. -/
theorem create_server_instance_fresh_and_populated (assetsDir : String)
    (fs : FileSystem) (n m : Nat) (sn sm : McpServerModel) (hnm : n ≠ m)
    (hn : createServerInstance assetsDir fs n = .ok sn)
    (hm : createServerInstance assetsDir fs m = .ok sm) :
    sn.instanceId ≠ sm.instanceId ∧
    sn.tools = [showTodoReg, refreshTodosReg, saveTodoStateReg] ∧
    sn.resources.map ResourceReg.name = ["todo-widget"] ∧
    sn.resources.map ResourceReg.uri = [todoUri] := by
  unfold createServerInstance at hn hm
  cases hassets : loadWidgetAssets assetsDir fs "todo" with
  | error e =>
    rw [hassets] at hn
    cases hn
  | ok assets =>
    rw [hassets] at hn hm
    cases hn
    cases hm
    exact ⟨hnm, rfl, rfl, rfl⟩

/-- Witness for C6 at the concrete filesystem holding the built bundle and
the allocation tags 0 and 1. -/
theorem create_server_instance_fresh_and_populated_witness :
    ({ instanceId := 0,
       resources := [⟨"todo-widget", todoUri, "text/html+skybridge",
                      widgetHtml "todo" "JSCODE" ""⟩],
       tools := [showTodoReg, refreshTodosReg, saveTodoStateReg] } :
        McpServerModel).instanceId ≠
    ({ instanceId := 1,
       resources := [⟨"todo-widget", todoUri, "text/html+skybridge",
                      widgetHtml "todo" "JSCODE" ""⟩],
       tools := [showTodoReg, refreshTodosReg, saveTodoStateReg] } :
        McpServerModel).instanceId ∧
    ({ instanceId := 0,
       resources := [⟨"todo-widget", todoUri, "text/html+skybridge",
                      widgetHtml "todo" "JSCODE" ""⟩],
       tools := [showTodoReg, refreshTodosReg, saveTodoStateReg] } :
        McpServerModel).tools = [showTodoReg, refreshTodosReg, saveTodoStateReg] ∧
    ({ instanceId := 0,
       resources := [⟨"todo-widget", todoUri, "text/html+skybridge",
                      widgetHtml "todo" "JSCODE" ""⟩],
       tools := [showTodoReg, refreshTodosReg, saveTodoStateReg] } :
        McpServerModel).resources.map ResourceReg.name = ["todo-widget"] ∧
    ({ instanceId := 0,
       resources := [⟨"todo-widget", todoUri, "text/html+skybridge",
                      widgetHtml "todo" "JSCODE" ""⟩],
       tools := [showTodoReg, refreshTodosReg, saveTodoStateReg] } :
        McpServerModel).resources.map ResourceReg.uri = [todoUri] :=
  create_server_instance_fresh_and_populated "dist" fsDist 0 1 _ _
    (by decide) rfl rfl

/-- Claim C7: invoking the `show-todo` tool with valid input
`{message: m}` (any optional `userId`) succeeds, and the result's structured
content carries a `message` field equal to `m`; in particular
`{message: "hi"}` echoes `"hi"`. -/
theorem show_todo_echoes_message (m : String) (u : Option String) :
    invokeShowTodo ⟨some m, u⟩ = Except.ok (showTodoHandler m u) ∧
    (showTodoHandler m u).structuredContent.message = m :=
  ⟨rfl, rfl⟩

/-- Claim C8: when the built asset directory is missing, `loadWidgetAssets`
fails with a diagnostic naming the expected directory and the remediation
command; when the component's JS bundle file is missing, it fails with a
diagnostic naming the expected bundle path and the remediation command; and
when the assets exist, resolution succeeds. -/
theorem load_widget_assets_diagnostics (assetsDir : String) (fs : FileSystem)
    (componentName : String) :
    (fs.pathExists assetsDir = false →
      loadWidgetAssets assetsDir fs componentName
        = .error (dirMissingMsg assetsDir) ∧
      assetsDir.data <:+: (dirMissingMsg assetsDir).data ∧
      buildCmd.data <:+: (dirMissingMsg assetsDir).data) ∧
    (fs.pathExists assetsDir = true →
      fs.pathExists (jsPathOf assetsDir componentName) = false →
      loadWidgetAssets assetsDir fs componentName
        = .error (jsMissingMsg assetsDir componentName) ∧
      (jsPathOf assetsDir componentName).data
        <:+: (jsMissingMsg assetsDir componentName).data ∧
      buildCmd.data <:+: (jsMissingMsg assetsDir componentName).data) ∧
    (∀ js, fs.pathExists assetsDir = true →
      fs.pathExists (jsPathOf assetsDir componentName) = true →
      fs.readFile (jsPathOf assetsDir componentName) = some js →
      loadWidgetAssets assetsDir fs componentName
        = .ok ⟨js, (fs.readFile (cssPathOf assetsDir componentName)).getD "",
               widgetHtml componentName js
                 ((fs.readFile (cssPathOf assetsDir componentName)).getD "")⟩) := by
  refine ⟨fun hdir => ⟨?_, ?_, ?_⟩, fun hdir hjs => ⟨?_, ?_, ?_⟩, fun js hdir hjs hread => ?_⟩
  · simp [loadWidgetAssets, hdir]
  · exact ⟨"Widget assets not found. Expected directory ".data,
      (". Run \"" ++ buildCmd ++ "\" before starting the server.").data,
      by simp [dirMissingMsg, String.data_append]⟩
  · exact ⟨("Widget assets not found. Expected directory " ++ assetsDir ++ ". Run \"").data,
      "\" before starting the server.".data,
      by simp [dirMissingMsg, String.data_append]⟩
  · simp [loadWidgetAssets, hdir, hjs]
  · exact ⟨("Widget JS for \"" ++ componentName ++ "\" not found at ").data,
      (". Run \"" ++ buildCmd ++ "\" to generate the assets.").data,
      by simp [jsMissingMsg, String.data_append]⟩
  · exact ⟨("Widget JS for \"" ++ componentName ++ "\" not found at " ++
        jsPathOf assetsDir componentName ++ ". Run \"").data,
      "\" to generate the assets.".data,
      by simp [jsMissingMsg, String.data_append]⟩
  · simp [loadWidgetAssets, hdir, hjs, hread]

/-- Witness for C8: the missing-directory diagnostic on the empty filesystem,
and successful resolution on the filesystem holding the built bundle. -/
theorem load_widget_assets_diagnostics_witness :
    (loadWidgetAssets "dist" fsEmpty "todo" = .error (dirMissingMsg "dist") ∧
     "dist".data <:+: (dirMissingMsg "dist").data ∧
     buildCmd.data <:+: (dirMissingMsg "dist").data) ∧
    loadWidgetAssets "dist" fsDist "todo"
      = .ok ⟨"JSCODE", (fsDist.readFile (cssPathOf "dist" "todo")).getD "",
             widgetHtml "todo" "JSCODE"
               ((fsDist.readFile (cssPathOf "dist" "todo")).getD "")⟩ :=
  ⟨(load_widget_assets_diagnostics "dist" fsEmpty "todo").1 rfl,
   (load_widget_assets_diagnostics "dist" fsDist "todo").2.2 "JSCODE" rfl rfl rfl⟩

/-- Claim C9: the listening port comes from the `PORT` environment variable
with numeric fallback: when `PORT` is unset or does not convert to a finite
number the port is 8000, and otherwise the port is the converted value. -/
theorem port_env_fallback (toNumber : String → Option Int) :
    portOf none toNumber = 8000 ∧
    (∀ s, toNumber s = none → portOf (some s) toNumber = 8000) ∧
    (∀ s n, toNumber s = some n → portOf (some s) toNumber = n) := by
  refine ⟨rfl, ?_, ?_⟩
  · intro s hs
    simp [portOf, portEnvOf, hs]
  · intro s n hs
    simp [portOf, portEnvOf, hs]

/-- Witness for C9 at a concrete conversion: unset, non-numeric and numeric
values of `PORT`. -/
theorem port_env_fallback_witness :
    portOf none toNumberW = 8000 ∧
    portOf (some "abc") toNumberW = 8000 ∧
    portOf (some "3000") toNumberW = 3000 :=
  ⟨(port_env_fallback toNumberW).1,
   (port_env_fallback toNumberW).2.1 "abc" rfl,
   (port_env_fallback toNumberW).2.2 "3000" 3000 (by decide)⟩

/-- Claim C10: if `server.connect(transport)` fails during stream-open
handling of a fresh session id, the just-inserted id is removed again before
the handler returns, leaving the Stream Session Table exactly as it was
before the request, and when response headers have not yet been sent the
handler answers HTTP 500. -/
theorem sse_connect_failure_atomic {α : Type} (t : List (String × α))
    (sid : String) (record : α) (e : String) (headersSent : Bool)
    (hfresh : getEntry t sid = none) :
    (handleSseRequest t sid record (Except.error e) headersSent).1 = t ∧
    (headersSent = false →
      (handleSseRequest t sid record (Except.error e) headersSent).2
        = some ⟨500, "Failed to establish SSE connection"⟩) := by
  constructor
  · show deleteEntry (setEntry t sid record) sid = t
    exact deleteEntry_setEntry_fresh t sid record hfresh
  · intro h
    subst h
    rfl

/-- Witness for C10: a failed connect on a fresh session id restores the
concrete one-entry table and answers 500. -/
theorem sse_connect_failure_atomic_witness :
    (handleSseRequest [("other", (5 : Nat))] "s1" 7 (Except.error "boom") false).1
      = [("other", (5 : Nat))] ∧
    (handleSseRequest [("other", (5 : Nat))] "s1" 7 (Except.error "boom") false).2
      = some ⟨500, "Failed to establish SSE connection"⟩ :=
  ⟨(sse_connect_failure_atomic [("other", (5 : Nat))] "s1" 7 "boom" false
      (by decide)).1,
   (sse_connect_failure_atomic [("other", (5 : Nat))] "s1" 7 "boom" false
      (by decide)).2 rfl⟩

end McpApp
